import Mathlib

/-!
# Appointments Management API — verification of the scheduling core

A shallow embedding of the appointment scheduling engine of `src/index.js`:
the temporal validators (`isValidDate` / `isValidTime`), the patient
existence gate (`ensurePatientExists`), the conflict resolver
(`isSlotTaken`) and the appointment mutation handlers
(POST/GET/PUT/DELETE on `/appointments`, plus the GET `/patients`
error path).

The persistent MySQL tables are modelled as in-memory lists carried by a
`Store` value; each route handler becomes a pure function from a store and
a parsed JSON request to a result (mirroring the HTTP status branches of
the handler) and an updated store.  JSON request-body values are modelled
by `JsValue`, including the JavaScript string coercion and truthiness that
the handlers rely on (`regex.test(v)` coerces `v` with `String(v)`;
`AppointmentDate || appt.appointment_date` selects on truthiness).
JSON numbers are modelled as integers (the routes only ever accept values
passing `Number.isInteger`, and reject everything else uniformly).
-/

namespace Appointments

/-- A JSON request-body value as seen by the JavaScript handlers.
`vundefined` is the value of a destructured field absent from the body.
Numbers are modelled as integers (see module doc). -/
inductive JsValue where
  | vundefined : JsValue
  | vnull : JsValue
  | vbool : Bool → JsValue
  | vnum : Int → JsValue
  | vstr : String → JsValue
  | varr : List JsValue → JsValue

/-- JavaScript truthiness of a value (used by `v && ...` and `v || ...`
in the handlers): `undefined`, `null`, `false`, `0` and `""` are falsy,
every array is truthy. -/
def jsTruthy : JsValue → Bool
  | .vundefined => false
  | .vnull => false
  | .vbool b => b
  | .vnum n => !(n == 0)
  | .vstr s => !(s == "")
  | .varr _ => true

mutual

/-- JavaScript `String(v)` coercion, as performed by
`RegExp.prototype.test` on a non-string argument and by the SQL driver
when serialising a parameter.  Arrays join their elements with `,`,
with `null`/`undefined` elements rendered empty. -/
def jsToString : JsValue → String
  | .vundefined => "undefined"
  | .vnull => "null"
  | .vbool b => if b then "true" else "false"
  | .vnum n => toString n
  | .vstr s => s
  | .varr l => jsArrJoin l

/-- Element coercion inside `Array.prototype.join`: as `jsToString`
except that `null` and `undefined` elements become the empty string. -/
def jsElemToString : JsValue → String
  | .vundefined => ""
  | .vnull => ""
  | .vbool b => if b then "true" else "false"
  | .vnum n => toString n
  | .vstr s => s
  | .varr l => jsArrJoin l

/-- `Array.prototype.join(",")` over coerced elements. -/
def jsArrJoin : List JsValue → String
  | [] => ""
  | [v] => jsElemToString v
  | v :: rest => jsElemToString v ++ "," ++ jsArrJoin rest

end

/-- Whether a `JsValue` is a string. -/
def JsValue.isString : JsValue → Bool
  | .vstr _ => true
  | _ => false

/-- Character-code range test `lo ≤ code c ≤ hi`, the building block of
the regex character classes. -/
def charBetween (lo hi : Nat) (c : Char) : Bool :=
  decide (lo ≤ c.toNat ∧ c.toNat ≤ hi)

/-- The regex class `\d` = `[0-9]` (codes 48–57). -/
def charDigit (c : Char) : Bool :=
  charBetween 48 57 c

/-- Matching of `^\d{4}-\d{2}-\d{2}$` on an exploded string. -/
def matchDateChars : List Char → Bool
  | [y1, y2, y3, y4, c1, m1, m2, c2, d1, d2] =>
      charDigit y1 && charDigit y2 && charDigit y3 && charDigit y4 &&
      c1 == '-' && charDigit m1 && charDigit m2 &&
      c2 == '-' && charDigit d1 && charDigit d2
  | _ => false

/-- Matching of `^([01]\d|2[0-3]):[0-5]\d$` on an exploded string:
`[01]` is codes 48–49, `2[0-3]` is `'2'` followed by codes 48–51,
`[0-5]` is codes 48–53. -/
def matchTimeChars : List Char → Bool
  | [h1, h2, c, m1, m2] =>
      ((charBetween 48 49 h1 && charDigit h2) ||
       (h1 == '2' && charBetween 48 51 h2)) &&
      c == ':' && charBetween 48 53 m1 && charDigit m2
  | _ => false

/-- `^\d{4}-\d{2}-\d{2}$` whole-string match. -/
def matchDateRe (s : String) : Bool :=
  matchDateChars s.data

/-- `^([01]\d|2[0-3]):[0-5]\d$` whole-string match. -/
def matchTimeRe (s : String) : Bool :=
  matchTimeChars s.data

/-- `const isValidDate = (s) => /^\d{4}-\d{2}-\d{2}$/.test(s);`
`test` coerces its argument with `String(s)` first. -/
def isValidDate (v : JsValue) : Bool :=
  matchDateRe (jsToString v)

/-- `const isValidTime = (s) => /^([01]\d|2[0-3]):[0-5]\d$/.test(s);` -/
def isValidTime (v : JsValue) : Bool :=
  matchTimeRe (jsToString v)

/-- A row of the `patients` table. -/
structure Patient where
  id : Int
  name : String
  contact : Option String
deriving DecidableEq, Repr

/-- A row of the `appointments` table (the `created_at` column is never
read by any handler and is omitted), holding the values as MySQL
stores them: `appointment_date` is the canonical `YYYY-MM-DD` date and
`appointment_time` the canonical `HH:MM:SS` time — MySQL normalises a
submitted `HH:MM` literal to `HH:MM:SS` on write.  Reading the row
back through mysql2 (default options, no `dateStrings`) yields the
`HH:MM:SS` string for the TIME column but a JavaScript `Date` object —
not a string — for the DATE column; the update handler's `===`
comparisons against these read-backs are modelled explicitly below. -/
structure Appointment where
  id : Int
  patient_id : Int
  appointment_date : String
  appointment_time : String
  reason : String
deriving DecidableEq, Repr

/-- The persistent state: both tables plus the `appointments`
AUTO_INCREMENT counter. -/
structure Store where
  patients : List Patient
  appointments : List Appointment
  nextAppointmentId : Int
deriving DecidableEq, Repr

/-- `ensurePatientExists`: `SELECT id FROM patients WHERE id = ?`
returns at least one row. -/
def ensurePatientExists (s : Store) (patientId : Int) : Bool :=
  s.patients.any (fun p => p.id == patientId)

/-- MySQL's interpretation of a string bound to a TIME column: a
five-character `HH:MM` literal denotes `HH:MM:SS` with zero seconds,
so it is normalised by appending `:00`; the canonical eight-character
`HH:MM:SS` form (and anything else — only validated or read-back
strings reach a TIME parameter in the handlers) is left as is. -/
def sqlTimeCanon (s : String) : String :=
  if s.length == 5 then s ++ ":00" else s

/-- `isSlotTaken`: `SELECT id FROM appointments WHERE patient_id = ?
AND appointment_date = ? AND appointment_time = ?` returns at least
one row.  The TIME equality is evaluated by MySQL, which coerces the
bound parameter (`'14:30'` matches a stored `14:30:00`); date
parameters are already canonical `YYYY-MM-DD` strings — or, on the
update fallback path, the row's own Date object, which the driver
serialises back to the date it denotes. -/
def isSlotTaken (s : Store) (patientId : Int) (date time : String) : Bool :=
  s.appointments.any (fun a =>
    a.patient_id == patientId && a.appointment_date == date &&
    a.appointment_time == sqlTimeCanon time)

/-- `String.prototype.trim()`: strip whitespace from both ends. -/
def jsTrim (s : String) : String :=
  String.mk (((s.data.dropWhile Char.isWhitespace).reverse.dropWhile
    Char.isWhitespace).reverse)

/-- Value of the leading decimal-digit run, `none` when there is no
leading digit (the NaN case of `parseInt`). -/
def leadingDigitsVal (cs : List Char) : Option Nat :=
  match cs.takeWhile charDigit with
  | [] => none
  | ds => some (ds.foldl (fun acc c => acc * 10 + (c.toNat - 48)) 0)

/-- `parseInt(s, 10)`: skip leading whitespace, read an optional sign
and then the longest digit run; `none` models `NaN`. -/
def parseIntBase10 (s : String) : Option Int :=
  match s.data.dropWhile Char.isWhitespace with
  | '-' :: rest => (leadingDigitsVal rest).map (fun n => -(n : Int))
  | '+' :: rest => (leadingDigitsVal rest).map (fun n => (n : Int))
  | cs => (leadingDigitsVal cs).map (fun n => (n : Int))

/-!
A `NaN` identity (failed `parseInt`) is serialised unquoted by the
driver, producing `WHERE id = NaN` — a SQL error.  The three by-id
appointment handlers have no try/catch, so that error is never turned
into a response; the `sqlError` constructors below model this
unhandled-failure outcome (the store is left unchanged, since the
failing SELECT/UPDATE/DELETE performs no write), and the status
functions of these routes return `none` for it: no HTTP status is
ever sent.
-/

/-- The body of a POST `/appointments` request after
`const { PatientId, AppointmentDate, AppointmentTime, Reason } =
req.body`; an absent field destructures to `undefined`. -/
structure CreateBody where
  PatientId : JsValue
  AppointmentDate : JsValue
  AppointmentTime : JsValue
  Reason : JsValue

/-- The outcome branches of the POST `/appointments` handler, one per
`return res.status(...)` site plus the success path. -/
inductive CreateResult where
  | invalidPatientId : CreateResult
  | badDate : CreateResult
  | badTime : CreateResult
  | badReason : CreateResult
  | patientNotFound : CreateResult
  | slotConflict : CreateResult
  | created : Appointment → CreateResult
deriving DecidableEq, Repr

/-- HTTP status of each POST `/appointments` outcome. -/
def createStatus : CreateResult → Nat
  | .invalidPatientId => 400
  | .badDate => 400
  | .badTime => 400
  | .badReason => 400
  | .patientNotFound => 404
  | .slotConflict => 409
  | .created _ => 201

/-- `Number.isInteger(PatientId) && !(PatientId <= 0)`: the handler
rejects unless the value is an integer greater than zero. -/
def validPatientId : JsValue → Bool
  | .vnum n => decide (0 < n)
  | _ => false

/-- The integer carried by a value that passed `validPatientId`. -/
def patientIdVal : JsValue → Int
  | .vnum n => n
  | _ => 0

/-- `!(!Reason || typeof Reason !== 'string' || !Reason.trim())`:
the reason must be a truthy string with non-empty trim. -/
def reasonOk (v : JsValue) : Bool :=
  jsTruthy v &&
    (match v with
     | .vstr s => !(jsTrim s == "")
     | _ => false)

/-- `Reason.trim()` for a value that passed `reasonOk`. -/
def reasonTrimVal : JsValue → String
  | .vstr s => jsTrim s
  | _ => ""

/-- The row inserted by a successful POST `/appointments`, as MySQL
stores it: the validated `HH:MM` time is normalised to `HH:MM:SS`. -/
def insertedRow (s : Store) (b : CreateBody) : Appointment :=
  { id := s.nextAppointmentId
    patient_id := patientIdVal b.PatientId
    appointment_date := jsToString b.AppointmentDate
    appointment_time := sqlTimeCanon (jsToString b.AppointmentTime)
    reason := reasonTrimVal b.Reason }

/-- The POST `/appointments` handler (lines 541–577): the six checks in
source order, then `INSERT` of the new row with the next
AUTO_INCREMENT identity.  Non-string date/time values that pass the
validators are serialised by the driver via their string coercion. -/
def createAppointment (s : Store) (b : CreateBody) : CreateResult × Store :=
  if !(validPatientId b.PatientId) then (.invalidPatientId, s)
  else if !(isValidDate b.AppointmentDate) then (.badDate, s)
  else if !(isValidTime b.AppointmentTime) then (.badTime, s)
  else if !(reasonOk b.Reason) then (.badReason, s)
  else if !(ensurePatientExists s (patientIdVal b.PatientId)) then
    (.patientNotFound, s)
  else if isSlotTaken s (patientIdVal b.PatientId)
      (jsToString b.AppointmentDate) (jsToString b.AppointmentTime) then
    (.slotConflict, s)
  else
    (.created (insertedRow s b),
     { s with appointments := s.appointments ++ [insertedRow s b]
              nextAppointmentId := s.nextAppointmentId + 1 })

/-- The body of a PUT `/appointments/:id` request after destructuring. -/
structure UpdateBody where
  AppointmentDate : JsValue
  AppointmentTime : JsValue
  Reason : JsValue

/-- The outcome branches of the PUT `/appointments/:id` handler;
`sqlError` is the unhandled `WHERE id = NaN` driver error (no
response is sent). -/
inductive UpdateResult where
  | sqlError : UpdateResult
  | notFound : UpdateResult
  | badDate : UpdateResult
  | badTime : UpdateResult
  | slotConflict : UpdateResult
  | updated : Appointment → UpdateResult
deriving DecidableEq, Repr

/-- HTTP status of each PUT `/appointments/:id` outcome; `none` when
the handler never sends a response. -/
def updateStatus : UpdateResult → Option Nat
  | .sqlError => none
  | .notFound => some 404
  | .badDate => some 400
  | .badTime => some 400
  | .slotConflict => some 409
  | .updated _ => some 200

/-- `(typeof Reason === 'string' && Reason.trim()) || appt.reason`:
a string reason is trimmed, with fallback to the current reason when
the trim is empty or the value is not a string. -/
def reasonFallback (v : JsValue) (cur : String) : String :=
  match v with
  | .vstr s => if jsTrim s == "" then cur else jsTrim s
  | _ => cur

/-- The field assignment of `UPDATE appointments SET appointment_date
= ?, appointment_time = ?, reason = ? WHERE id = ?` on one row. -/
def mergedRow (nd nt nr : String) (a : Appointment) : Appointment :=
  { a with appointment_date := nd, appointment_time := nt, reason := nr }

/-- The SQL-parameter value of
`const newDate = AppointmentDate || appt.appointment_date;` — the
submitted value's driver serialisation when truthy, else the row's own
read-back `Date` object, which the driver serialises back to the
canonical date it denotes. -/
def newDateParam (b : UpdateBody) (appt : Appointment) : String :=
  if jsTruthy b.AppointmentDate then jsToString b.AppointmentDate
  else appt.appointment_date

/-- The SQL-parameter value of
`const newTime = AppointmentTime || appt.appointment_time;` — the
submitted value's serialisation when truthy, else the row's read-back
`HH:MM:SS` string. -/
def newTimeParam (b : UpdateBody) (appt : Appointment) : String :=
  if jsTruthy b.AppointmentTime then jsToString b.AppointmentTime
  else appt.appointment_time

/-- `newDate === appt.appointment_date` (line 696): on fallback,
`newDate` IS `appt.appointment_date` (the same `Date` object), so the
strict equality holds; when a truthy value was submitted, `newDate` is
a JSON value (a string, number, array, ...) and `appt.appointment_date`
is a `Date` object, and `===` between a primitive or a different object
and that `Date` object is always false. -/
def newDateStrictEq (b : UpdateBody) : Bool :=
  !(jsTruthy b.AppointmentDate)

/-- `newTime === appt.appointment_time` (line 696): on fallback the
two sides are the same string; when a truthy value was submitted, the
strict equality holds only for a string equal to the `HH:MM:SS`
read-back (`===` never equates a non-string with a string, and does
not coerce). -/
def newTimeStrictEq (b : UpdateBody) (appt : Appointment) : Bool :=
  if jsTruthy b.AppointmentTime then
    match b.AppointmentTime with
    | .vstr s2 => s2 == appt.appointment_time
    | _ => false
  else true

/-- The PUT `/appointments/:id` handler (lines 677–713): `parseInt`
the identity (NaN raises an uncaught driver error), look the record up
(404 before any field validation), validate only truthy submitted
fields, merge with the current row via `||` fallback, run the conflict
check against the merged slot with the `===` own-slot exemption of
line 696, then `UPDATE ... WHERE id = ?` — MySQL normalising the
written time to `HH:MM:SS`. -/
def updateAppointment (s : Store) (idStr : String) (b : UpdateBody) :
    UpdateResult × Store :=
  match parseIntBase10 idStr with
  | none => (.sqlError, s)
  | some n =>
    match s.appointments.find? (fun a => a.id == n) with
    | none => (.notFound, s)
    | some appt =>
      if jsTruthy b.AppointmentDate && !(isValidDate b.AppointmentDate) then
        (.badDate, s)
      else if jsTruthy b.AppointmentTime &&
          !(isValidTime b.AppointmentTime) then
        (.badTime, s)
      else
        if isSlotTaken s appt.patient_id (newDateParam b appt)
            (newTimeParam b appt) &&
            !(newDateStrictEq b && newTimeStrictEq b appt) then
          (.slotConflict, s)
        else
          (.updated (mergedRow (newDateParam b appt)
              (sqlTimeCanon (newTimeParam b appt))
              (reasonFallback b.Reason appt.reason) appt),
           { s with appointments := s.appointments.map (fun a =>
               if a.id == n then
                 mergedRow (newDateParam b appt)
                   (sqlTimeCanon (newTimeParam b appt))
                   (reasonFallback b.Reason appt.reason) a
               else a) })

/-- The outcome branches of the GET `/appointments/:id` handler;
`sqlError` is the unhandled NaN-identity driver error. -/
inductive GetResult where
  | sqlError : GetResult
  | notFound : GetResult
  | found : Appointment → GetResult
deriving DecidableEq, Repr

/-- HTTP status of each GET `/appointments/:id` outcome; `none` when
the handler never sends a response. -/
def getStatus : GetResult → Option Nat
  | .sqlError => none
  | .notFound => some 404
  | .found _ => some 200

/-- The GET `/appointments/:id` handler (lines 623–631): `parseInt`
the identity (NaN raises an uncaught driver error),
`SELECT ... WHERE id = ?`, 404 on zero rows.  There is no
identity-validation branch. -/
def getAppointment (s : Store) (idStr : String) : GetResult :=
  match parseIntBase10 idStr with
  | none => .sqlError
  | some n =>
    match s.appointments.find? (fun a => a.id == n) with
    | none => .notFound
    | some a => .found a

/-- The outcome branches of the DELETE `/appointments/:id` handler;
`sqlError` is the unhandled NaN-identity driver error. -/
inductive DeleteResult where
  | sqlError : DeleteResult
  | notFound : DeleteResult
  | deleted : Int → DeleteResult
deriving DecidableEq, Repr

/-- HTTP status of each DELETE `/appointments/:id` outcome; `none`
when the handler never sends a response. -/
def deleteStatus : DeleteResult → Option Nat
  | .sqlError => none
  | .notFound => some 404
  | .deleted _ => some 200

/-- The rows surviving `DELETE FROM appointments WHERE id = ?` for a
numeric identity. -/
def remainingRows (s : Store) (n : Int) : List Appointment :=
  s.appointments.filter (fun a => !(a.id == n))

/-- The DELETE `/appointments/:id` handler (lines 738–743): `parseInt`
the identity (NaN raises an uncaught driver error),
`DELETE ... WHERE id = ?`, 404 when `affectedRows` is zero.  There is
no identity-validation branch. -/
def deleteAppointment (s : Store) (idStr : String) : DeleteResult × Store :=
  match parseIntBase10 idStr with
  | none => (.sqlError, s)
  | some n =>
    if (remainingRows s n).length == s.appointments.length then
      (.notFound, s)
    else
      (.deleted n, { s with appointments := remainingRows s n })

/-- A failure reported by the connection pool (`err` in a `catch`). -/
structure DbFailure where
  message : String
deriving DecidableEq, Repr

/-- The response branches of the GET `/patients` handler. -/
inductive PatientsListResult where
  | rows : List Patient → PatientsListResult
  | dbFailure : String → String → PatientsListResult
deriving DecidableEq, Repr

/-- HTTP status of each GET `/patients` outcome. -/
def patientsListStatus : PatientsListResult → Nat
  | .rows _ => 200
  | .dbFailure _ _ => 500

/-- The JSON field `error` of a GET `/patients` response body, when
present: the handler's 500 body is
`{ message: 'Database error', error: err.message }`. -/
def exposedDetail : PatientsListResult → Option String
  | .rows _ => none
  | .dbFailure _ e => some e

/-- The GET `/patients` handler (lines 170–179): the query result (or
the caught pool failure) determines the response, and the handler also
writes one console line; the pair's second component is the console
output. -/
def getPatientsRoute (q : Except DbFailure (List Patient)) :
    PatientsListResult × List String :=
  match q with
  | .ok ps => (.rows ps, ["Patients fetched"])
  | .error e => (.dbFailure "Database error" e.message,
                 ["DB Error: " ++ e.message])

/-- One client request against the appointment collection. -/
inductive Op where
  | create : CreateBody → Op
  | update : String → UpdateBody → Op
  | delete : String → Op

/-- The store left behind by one request (every rejection branch of
every handler returns the store unchanged). -/
def applyOp (s : Store) : Op → Store
  | .create b => (createAppointment s b).2
  | .update idStr b => (updateAppointment s idStr b).2
  | .delete idStr => (deleteAppointment s idStr).2

/-- The store after a sequence of requests. -/
def runOps (s : Store) : List Op → Store
  | [] => s
  | op :: rest => runOps (applyOp s op) rest

/-- A fresh deployment: some patient rows, no appointments, and the
AUTO_INCREMENT counter at 1. -/
def initStore (ps : List Patient) : Store :=
  { patients := ps, appointments := [], nextAppointmentId := 1 }

/-- Two appointment rows for the same patient in the same slot. -/
def sameSlot (a b : Appointment) : Prop :=
  a.patient_id = b.patient_id ∧ a.appointment_date = b.appointment_date ∧
    a.appointment_time = b.appointment_time

instance (a b : Appointment) : Decidable (sameSlot a b) := by
  unfold sameSlot
  infer_instance

/-- The spec's consistency invariant: no two live appointment rows of
one patient share a (date, time) pair. -/
def slotInvariant (s : Store) : Prop :=
  s.appointments.Pairwise (fun a b => ¬ sameSlot a b)

/-- Distinctness of the `id` primary key across live rows. -/
def idsDistinct (s : Store) : Prop :=
  s.appointments.Pairwise (fun a b => a.id ≠ b.id)

instance (s : Store) : Decidable (slotInvariant s) := by
  unfold slotInvariant
  infer_instance

instance (s : Store) : Decidable (idsDistinct s) := by
  unfold idsDistinct
  infer_instance

/-- Every live row's identity is below the AUTO_INCREMENT counter. -/
def idsBounded (s : Store) : Prop :=
  ∀ a ∈ s.appointments, a.id < s.nextAppointmentId

/-- Every stored time is in MySQL's canonical form (it is a fixed
point of the TIME normalisation) — true of every written row, since
MySQL normalises on write. -/
def timesCanonical (s : Store) : Prop :=
  ∀ a ∈ s.appointments, sqlTimeCanon a.appointment_time = a.appointment_time

instance (s : Store) : Decidable (timesCanonical s) := by
  unfold timesCanonical
  infer_instance

/-- Store well-formedness: primary-key discipline, canonical stored
times, and the slot exclusivity invariant. -/
def StoreOk (s : Store) : Prop :=
  idsDistinct s ∧ idsBounded s ∧ timesCanonical s ∧ slotInvariant s

/-- Modelled from the spec: the update-time conflict test as §4.3 words
it — occupancy of the computed slot checked with the appointment's own
current identity excluded from the comparison set.  Occupancy of a
slot is decided by the same resolver semantics as `isSlotTaken`, so
the time parameter is canonicalised the same way. -/
def slotTakenExcludingSelf (s : Store) (selfId : Int) (patientId : Int)
    (date time : String) : Bool :=
  s.appointments.any (fun a =>
    !(a.id == selfId) && a.patient_id == patientId &&
    a.appointment_date == date && a.appointment_time == sqlTimeCanon time)

/-- Numeric value of a digit character. -/
def digitVal (c : Char) : Nat := c.toNat - 48

/-- The two-digit zero-padded rendering of `n ≤ 99`. -/
def pad2 (n : Nat) : List Char :=
  [Char.ofNat (48 + n / 10), Char.ofNat (48 + n % 10)]

/-- The four-digit zero-padded rendering of `n ≤ 9999`. -/
def pad4 (n : Nat) : List Char :=
  pad2 (n / 100) ++ pad2 (n % 100)

/-- Declarative reading of the date pattern: four digits, dash, two
digits, dash, two digits — with no calendar-validity constraint
(month and day components range over 00–99). -/
def DateShape (s : String) : Prop :=
  ∃ y mo d : Nat, y ≤ 9999 ∧ mo ≤ 99 ∧ d ≤ 99 ∧
    s.data = pad4 y ++ '-' :: (pad2 mo ++ '-' :: pad2 d)

/-- Declarative reading of the time pattern: hour 00–23, colon,
minute 00–59. -/
def TimeShape (s : String) : Prop :=
  ∃ h m : Nat, h ≤ 23 ∧ m ≤ 59 ∧ s.data = pad2 h ++ ':' :: pad2 m

/-- Sample patient row for concrete witnesses. -/
def sampleP : Patient :=
  { id := 1, name := "John Doe", contact := some "123456789" }

/-- Sample appointment row for concrete witnesses, stored as MySQL
holds it: the time carries seconds. -/
def sampleA : Appointment :=
  { id := 1, patient_id := 1, appointment_date := "2025-08-20",
    appointment_time := "14:30:00", reason := "checkup" }

/-- A second appointment of the same patient in another slot. -/
def sampleB : Appointment :=
  { id := 2, patient_id := 1, appointment_date := "2025-08-21",
    appointment_time := "09:00:00", reason := "follow-up" }

/-- Sample store with one patient and one appointment. -/
def sampleStore : Store :=
  { patients := [sampleP], appointments := [sampleA], nextAppointmentId := 2 }

/-- Sample store with one patient and two appointments. -/
def sampleStore2 : Store :=
  { patients := [sampleP], appointments := [sampleA, sampleB],
    nextAppointmentId := 3 }

/-! ## Helper lemmas -/

theorem isSlotTaken_false_iff {s : Store} {pid : Int} {d t : String} :
    isSlotTaken s pid d t = false ↔
      ∀ a ∈ s.appointments,
        ¬(a.patient_id = pid ∧ a.appointment_date = d ∧
          a.appointment_time = sqlTimeCanon t) := by
  simp only [isSlotTaken, Bool.eq_false_iff, ne_eq, List.any_eq_true,
    Bool.and_eq_true, beq_iff_eq, not_exists, not_and]
  constructor
  · intro h a ha h1 h2 h3
    exact h a ha ⟨h1, h2⟩ h3
  · intro h a ha hc h3
    exact h a ha hc.1 hc.2 h3

theorem ids_ne_symm : Symmetric (fun a b : Appointment => a.id ≠ b.id) :=
  fun _ _ h => Ne.symm h

theorem sameSlot_symm : Symmetric (fun a b : Appointment => ¬ sameSlot a b) := by
  intro a b h hc
  exact h ⟨hc.1.symm, hc.2.1.symm, hc.2.2.symm⟩

theorem row_id_unique {s : Store} {n : Int} {appt x : Appointment}
    (hids : idsDistinct s)
    (hfind : s.appointments.find? (fun a => a.id == n) = some appt)
    (hx : x ∈ s.appointments) (hmx : (x.id == n) = true) : x = appt := by
  have hmem := List.mem_of_find?_eq_some hfind
  have hpa := List.find?_some hfind
  by_contra hne
  have hneid : x.id ≠ appt.id := hids.forall ids_ne_symm hx hmem hne
  simp only [beq_iff_eq] at hmx hpa
  exact hneid (hmx.trans hpa.symm)

theorem length_append_colon00 (s : String) :
    (s ++ ":00").length = s.length + 3 := by
  rw [String.length_append]
  rfl

theorem sqlTimeCanon_idem (s : String) :
    sqlTimeCanon (sqlTimeCanon s) = sqlTimeCanon s := by
  unfold sqlTimeCanon
  split
  · next h =>
      simp only [beq_iff_eq] at h
      have h8 : (s ++ ":00").length = 8 := by
        rw [length_append_colon00, h]
      rw [if_neg (by simp [h8])]
  · rfl

theorem sqlTimeCanon_fix_length {s : String} (h : sqlTimeCanon s = s) :
    s.length ≠ 5 := by
  intro h5
  unfold sqlTimeCanon at h
  rw [if_pos (by simp [h5])] at h
  have h3 := length_append_colon00 s
  rw [h] at h3
  omega

theorem matchTimeChars_len {cs : List Char} (h : matchTimeChars cs = true) :
    cs.length = 5 := by
  rcases cs with _ | ⟨a, _ | ⟨b, _ | ⟨x, _ | ⟨d, _ | ⟨e, _ | ⟨f, rest⟩⟩⟩⟩⟩⟩ <;>
    simp_all [matchTimeChars]

theorem matchTimeRe_length {s : String} (h : matchTimeRe s = true) :
    s.length = 5 :=
  matchTimeChars_len h

/-! ## Preservation of the slot-exclusivity invariant (C1) -/

theorem storeOk_create (s : Store) (b : CreateBody) (h : StoreOk s) :
    StoreOk (createAppointment s b).2 := by
  obtain ⟨hids, hbound, hcanon, hslot⟩ := h
  unfold createAppointment
  split
  · exact ⟨hids, hbound, hcanon, hslot⟩
  split
  · exact ⟨hids, hbound, hcanon, hslot⟩
  split
  · exact ⟨hids, hbound, hcanon, hslot⟩
  split
  · exact ⟨hids, hbound, hcanon, hslot⟩
  split
  · exact ⟨hids, hbound, hcanon, hslot⟩
  split
  · exact ⟨hids, hbound, hcanon, hslot⟩
  next htaken =>
    rw [Bool.not_eq_true] at htaken
    refine ⟨?_, ?_, ?_, ?_⟩
    · refine List.pairwise_append.mpr
        ⟨hids, List.pairwise_singleton _ _, ?_⟩
      intro x hx y hy
      have hy2 : y = insertedRow s b := by simpa using hy
      subst hy2
      have hlt := hbound x hx
      intro hcontra
      rw [hcontra] at hlt
      simp [insertedRow] at hlt
    · intro x hx
      rcases List.mem_append.mp hx with hx1 | hx2
      · have := hbound x hx1
        dsimp only
        omega
      · have hx3 : x = insertedRow s b := by simpa using hx2
        subst hx3
        simp [insertedRow]
    · intro x hx
      rcases List.mem_append.mp hx with hx1 | hx2
      · exact hcanon x hx1
      · have hx3 : x = insertedRow s b := by simpa using hx2
        subst hx3
        exact sqlTimeCanon_idem _
    · refine List.pairwise_append.mpr
        ⟨hslot, List.pairwise_singleton _ _, ?_⟩
      intro x hx y hy
      have hy2 : y = insertedRow s b := by simpa using hy
      subst hy2
      intro hcontra
      exact (isSlotTaken_false_iff.mp htaken x hx) hcontra

theorem mergedRow_id (nd nt nr : String) (a : Appointment) :
    (mergedRow nd nt nr a).id = a.id := rfl

theorem ite_mergedRow_id (p : Prop) [Decidable p] (nd nt nr : String)
    (a : Appointment) :
    (if p then mergedRow nd nt nr a else a).id = a.id := by
  split <;> rfl

theorem storeOk_update (s : Store) (idStr : String) (b : UpdateBody)
    (h : StoreOk s) : StoreOk (updateAppointment s idStr b).2 := by
  obtain ⟨hids, hbound, hcanon, hslot⟩ := h
  unfold updateAppointment
  split
  · exact ⟨hids, hbound, hcanon, hslot⟩
  next n hn =>
    split
    · exact ⟨hids, hbound, hcanon, hslot⟩
    next appt hfind =>
      have hmem : appt ∈ s.appointments := List.mem_of_find?_eq_some hfind
      split
      · exact ⟨hids, hbound, hcanon, hslot⟩
      split
      · exact ⟨hids, hbound, hcanon, hslot⟩
      split
      · exact ⟨hids, hbound, hcanon, hslot⟩
      next hcnf =>
        rw [Bool.not_eq_true] at hcnf
        have hcase : isSlotTaken s appt.patient_id (newDateParam b appt)
            (newTimeParam b appt) = false ∨
            (newDateParam b appt = appt.appointment_date ∧
             sqlTimeCanon (newTimeParam b appt) = appt.appointment_time) := by
          rcases Bool.and_eq_false_iff.mp hcnf with h1 | h2
          · exact Or.inl h1
          · simp only [Bool.not_eq_false', Bool.and_eq_true] at h2
            obtain ⟨hdse, htse⟩ := h2
            refine Or.inr ⟨?_, ?_⟩
            · have hdf : jsTruthy b.AppointmentDate = false := by
                simpa [newDateStrictEq] using hdse
              simp [newDateParam, hdf]
            · by_cases htf : jsTruthy b.AppointmentTime = true
              · rw [newTimeStrictEq, if_pos htf] at htse
                rcases hbv : b.AppointmentTime with _ | _ | bb | nn | s2 | ll <;>
                  rw [hbv] at htse <;> simp at htse
                rw [newTimeParam, if_pos htf, hbv]
                simp only [jsToString, htse]
                exact hcanon appt hmem
              · rw [Bool.not_eq_true] at htf
                rw [newTimeParam, if_neg (by simp [htf])]
                exact hcanon appt hmem
        have huniq : ∀ x ∈ s.appointments, (x.id == n) = true → x = appt :=
          fun x hx hmx => row_id_unique hids hfind hx hmx
        refine ⟨?_, ?_, ?_, ?_⟩
        · apply List.pairwise_map.mpr
          apply hids.imp
          intro a c hac
          simpa [ite_mergedRow_id] using hac
        · intro x hx
          obtain ⟨y, hy, rfl⟩ := List.mem_map.mp hx
          show _ < s.nextAppointmentId
          rw [ite_mergedRow_id]
          exact hbound y hy
        · intro x hx
          obtain ⟨y, hy, rfl⟩ := List.mem_map.mp hx
          by_cases hmy : (y.id == n) = true
          · simp only [if_pos hmy, mergedRow]
            exact sqlTimeCanon_idem _
          · simp only [if_neg hmy]
            exact hcanon y hy
        · apply List.pairwise_map.mpr
          apply (hids.and hslot).imp_of_mem
          intro a c ha hc hac
          obtain ⟨hidac, hnsac⟩ := hac
          by_cases hma : (a.id == n) = true <;>
            by_cases hmc : (c.id == n) = true
          · exfalso
            have : a = c := (huniq a ha hma).trans (huniq c hc hmc).symm
            exact hidac (congrArg Appointment.id this)
          · have ha2 : a = appt := huniq a ha hma
            subst ha2
            simp only [if_pos hma, if_neg hmc]
            intro hcon
            obtain ⟨h1, h2, h3⟩ := hcon
            simp only [mergedRow] at h1 h2 h3
            rcases hcase with htf | ⟨hnd, hnt⟩
            · exact (isSlotTaken_false_iff.mp htf c hc)
                ⟨h1.symm, h2.symm, h3.symm⟩
            · exact hnsac ⟨h1, (hnd ▸ h2 : _), (hnt ▸ h3 : _)⟩
          · have hc2 : c = appt := huniq c hc hmc
            subst hc2
            simp only [if_neg hma, if_pos hmc]
            intro hcon
            obtain ⟨h1, h2, h3⟩ := hcon
            simp only [mergedRow] at h1 h2 h3
            rcases hcase with htf | ⟨hnd, hnt⟩
            · exact (isSlotTaken_false_iff.mp htf a ha) ⟨h1, h2, h3⟩
            · exact hnsac ⟨h1, h2.trans hnd, h3.trans hnt⟩
          · simp only [if_neg hma, if_neg hmc]
            exact hnsac

theorem remainingRows_sub (s : Store) (n : Int) :
    List.Sublist (remainingRows s n) s.appointments :=
  List.filter_sublist _

theorem storeOk_delete (s : Store) (idStr : String)
    (h : StoreOk s) : StoreOk (deleteAppointment s idStr).2 := by
  obtain ⟨hids, hbound, hcanon, hslot⟩ := h
  unfold deleteAppointment
  split
  · exact ⟨hids, hbound, hcanon, hslot⟩
  next n hn =>
    split
    · exact ⟨hids, hbound, hcanon, hslot⟩
    refine ⟨?_, ?_, ?_, ?_⟩
    · exact hids.sublist (remainingRows_sub s n)
    · intro x hx
      exact hbound x ((remainingRows_sub s n).subset hx)
    · intro x hx
      exact hcanon x ((remainingRows_sub s n).subset hx)
    · exact hslot.sublist (remainingRows_sub s n)

theorem storeOk_applyOp (s : Store) (op : Op) (h : StoreOk s) :
    StoreOk (applyOp s op) := by
  cases op with
  | create b => exact storeOk_create s b h
  | update idStr b => exact storeOk_update s idStr b h
  | delete idStr => exact storeOk_delete s idStr h

theorem storeOk_runOps (s : Store) (ops : List Op) (h : StoreOk s) :
    StoreOk (runOps s ops) := by
  induction ops generalizing s with
  | nil => exact h
  | cons op rest ih => exact ih _ (storeOk_applyOp s op h)

theorem storeOk_initStore (ps : List Patient) : StoreOk (initStore ps) :=
  ⟨List.Pairwise.nil, fun a ha => absurd ha (List.not_mem_nil a),
   fun a ha => absurd ha (List.not_mem_nil a), List.Pairwise.nil⟩

/-- C1: every sequence of create, update and delete requests run from a
fresh deployment leaves the store satisfying the slot-exclusivity
invariant at every point: no two live appointment rows of one patient
share a (date, time) pair.  (The sequence of requests is arbitrary, so
the statement holds after every prefix; rejected requests leave the
store unchanged by construction of the handlers.) -/
theorem slot_exclusivity_invariant (ps : List Patient) (ops : List Op) :
    slotInvariant (runOps (initStore ps) ops) :=
  (storeOk_runOps (initStore ps) ops (storeOk_initStore ps)).2.2.2

/-! ## The update-time conflict test (C6, C2) -/

theorem isSlotTaken_true_iff {s : Store} {pid : Int} {d t : String} :
    isSlotTaken s pid d t = true ↔
      ∃ a ∈ s.appointments,
        a.patient_id = pid ∧ a.appointment_date = d ∧
          a.appointment_time = sqlTimeCanon t := by
  simp only [isSlotTaken, List.any_eq_true, Bool.and_eq_true, beq_iff_eq]
  constructor
  · rintro ⟨a, ha, ⟨h1, h2⟩, h3⟩
    exact ⟨a, ha, h1, h2, h3⟩
  · rintro ⟨a, ha, h1, h2, h3⟩
    exact ⟨a, ha, ⟨h1, h2⟩, h3⟩

theorem slotTakenExcludingSelf_true_iff {s : Store} {selfId pid : Int}
    {d t : String} :
    slotTakenExcludingSelf s selfId pid d t = true ↔
      ∃ a ∈ s.appointments,
        a.id ≠ selfId ∧ a.patient_id = pid ∧ a.appointment_date = d ∧
          a.appointment_time = sqlTimeCanon t := by
  simp only [slotTakenExcludingSelf, List.any_eq_true, Bool.and_eq_true,
    beq_iff_eq, Bool.not_eq_true', beq_eq_false_iff_ne, ne_eq]
  constructor
  · rintro ⟨a, ha, ⟨⟨h0, h1⟩, h2⟩, h3⟩
    exact ⟨a, ha, h0, h1, h2, h3⟩
  · rintro ⟨a, ha, h0, h1, h2, h3⟩
    exact ⟨a, ha, ⟨⟨h0, h1⟩, h2⟩, h3⟩

/-- C6 (amended): under the store invariants, the update handler's
conflict expression of lines 695–698 is conservative with respect to
the spec's excluding-self occupancy test on the computed slot: every
excluding-self conflict is flagged by the handler; conversely a
handler conflict is either a genuine excluding-self conflict or a
spurious self-conflict — the computed slot coincides with the record's
own slot and at least one of date/time was submitted truthy (a
resubmission), where the `===` exemption fails against the Date-object
and `HH:MM:SS` read-backs.  When both fields are absent the two tests
agree exactly.  (The validation hypothesis on the time field holds at
the call site: the conflict check runs only after validation.) -/
theorem update_conflict_vs_exclusion (s : Store) (appt : Appointment)
    (b : UpdateBody)
    (hids : idsDistinct s) (hcanon : timesCanonical s)
    (hslot : slotInvariant s) (hmem : appt ∈ s.appointments)
    (hvt : jsTruthy b.AppointmentTime = true →
      isValidTime b.AppointmentTime = true) :
    (slotTakenExcludingSelf s appt.id appt.patient_id
        (newDateParam b appt) (newTimeParam b appt) = true →
      (isSlotTaken s appt.patient_id (newDateParam b appt)
          (newTimeParam b appt) &&
        !(newDateStrictEq b && newTimeStrictEq b appt)) = true) ∧
    ((isSlotTaken s appt.patient_id (newDateParam b appt)
          (newTimeParam b appt) &&
        !(newDateStrictEq b && newTimeStrictEq b appt)) = true →
      slotTakenExcludingSelf s appt.id appt.patient_id
          (newDateParam b appt) (newTimeParam b appt) = true ∨
        (newDateParam b appt = appt.appointment_date ∧
         sqlTimeCanon (newTimeParam b appt) = appt.appointment_time ∧
         (jsTruthy b.AppointmentDate = true ∨
          jsTruthy b.AppointmentTime = true))) ∧
    (jsTruthy b.AppointmentDate = false →
      jsTruthy b.AppointmentTime = false →
      (isSlotTaken s appt.patient_id (newDateParam b appt)
          (newTimeParam b appt) &&
        !(newDateStrictEq b && newTimeStrictEq b appt)) =
        slotTakenExcludingSelf s appt.id appt.patient_id
          (newDateParam b appt) (newTimeParam b appt)) := by
  refine ⟨?_, ?_, ?_⟩
  · intro hsp
    obtain ⟨x, hx, h0, h1, h2, h3⟩ := slotTakenExcludingSelf_true_iff.mp hsp
    rw [Bool.and_eq_true]
    refine ⟨isSlotTaken_true_iff.mpr ⟨x, hx, h1, h2, h3⟩, ?_⟩
    cases hdt : (newDateStrictEq b && newTimeStrictEq b appt) with
    | false => rfl
    | true =>
        exfalso
        rw [Bool.and_eq_true] at hdt
        obtain ⟨hdse, htse⟩ := hdt
        have hdf : jsTruthy b.AppointmentDate = false := by
          simpa [newDateStrictEq] using hdse
        have hdp : newDateParam b appt = appt.appointment_date := by
          simp [newDateParam, hdf]
        by_cases htf : jsTruthy b.AppointmentTime = true
        · rw [newTimeStrictEq, if_pos htf] at htse
          rcases hbv : b.AppointmentTime with _ | _ | bb | nn | s2 | ll <;>
            rw [hbv] at htse <;> simp at htse
          have hv : isValidTime b.AppointmentTime = true := hvt htf
          rw [hbv] at hv
          have hlen : s2.length = 5 :=
            matchTimeRe_length (by simpa [isValidTime, jsToString] using hv)
          have hfix := sqlTimeCanon_fix_length (hcanon appt hmem)
          rw [htse] at hlen
          exact hfix hlen
        · rw [Bool.not_eq_true] at htf
          have htp : newTimeParam b appt = appt.appointment_time := by
            simp [newTimeParam, htf]
          have hxa : x ≠ appt := fun he => h0 (congrArg Appointment.id he)
          exact (hslot.forall sameSlot_symm hx hmem hxa)
            ⟨h1, by rw [h2, hdp], by rw [h3, htp, hcanon appt hmem]⟩
  · intro hcd
    rw [Bool.and_eq_true] at hcd
    obtain ⟨ht, hne⟩ := hcd
    obtain ⟨x, hx, h1, h2, h3⟩ := isSlotTaken_true_iff.mp ht
    by_cases hxid : x.id = appt.id
    · have hxa : x = appt := by
        by_contra hne2
        exact (hids.forall ids_ne_symm hx hmem hne2) hxid
      subst hxa
      refine Or.inr ⟨h2.symm, h3.symm, ?_⟩
      rw [Bool.not_eq_true'] at hne
      rcases Bool.and_eq_false_iff.mp hne with hdse | htse
      · left
        simpa [newDateStrictEq] using hdse
      · right
        by_contra hff
        rw [Bool.not_eq_true] at hff
        rw [newTimeStrictEq, if_neg (by simp [hff])] at htse
        exact absurd htse (by simp)
    · exact Or.inl
        (slotTakenExcludingSelf_true_iff.mpr ⟨x, hx, hxid, h1, h2, h3⟩)
  · intro hdf htf
    have hdse : newDateStrictEq b = true := by
      simp [newDateStrictEq, hdf]
    have htse : newTimeStrictEq b appt = true := by
      rw [newTimeStrictEq, if_neg (by simp [htf])]
    rw [hdse, htse]
    simp only [Bool.and_self, Bool.not_true, Bool.and_false]
    cases hsp : slotTakenExcludingSelf s appt.id appt.patient_id
        (newDateParam b appt) (newTimeParam b appt) with
    | false => rfl
    | true =>
        exfalso
        obtain ⟨x, hx, h0, h1, h2, h3⟩ :=
          slotTakenExcludingSelf_true_iff.mp hsp
        have hdp : newDateParam b appt = appt.appointment_date := by
          simp [newDateParam, hdf]
        have htp : newTimeParam b appt = appt.appointment_time := by
          simp [newTimeParam, htf]
        have hxa : x ≠ appt := fun he => h0 (congrArg Appointment.id he)
        exact (hslot.forall sameSlot_symm hx hmem hxa)
          ⟨h1, by rw [h2, hdp], by rw [h3, htp, hcanon appt hmem]⟩

/-- C2 (the code at the spec's no-op input): resubmitting the record's
current date and time as strings is answered 409.  The stored row reads
back as a `Date` object and `"14:30:00"`, so `isSlotTaken` matches the
row itself (MySQL coerces `'14:30'` to `14:30:00`) while the `===`
exemption of line 696 compares `"2025-08-20" === Date` and
`"14:30" === "14:30:00"`, both false — the own-slot exemption the code
carries for exactly this purpose does not fire.  An update submitting
neither field does succeed (the fallbacks are the row's own
read-backs, `===`-equal to themselves). -/
theorem noop_resubmission_conflicts :
    (updateAppointment sampleStore "1"
      ⟨.vstr "2025-08-20", .vstr "14:30", .vundefined⟩).1 =
      .slotConflict ∧
    updateStatus (updateAppointment sampleStore "1"
      ⟨.vstr "2025-08-20", .vstr "14:30", .vundefined⟩).1 = some 409 ∧
    (updateAppointment sampleStore "1"
      ⟨.vundefined, .vundefined, .vundefined⟩).1 =
      .updated (mergedRow "2025-08-20" "14:30:00" "checkup" sampleA) := by
  refine ⟨by decide, by decide, by decide⟩

/-- C9: an update request whose parsed identity resolves to no live row
fails not-found with the store unchanged, whatever the submitted
fields are — the handler terminates before validating any of them.
(A non-numeric identity instead dies in the `WHERE id = NaN` driver
error before validating anything, cf. the by-identity route
theorems.) -/
theorem update_absent_id_short_circuits (s : Store) (idStr : String)
    (b : UpdateBody) (n : Int)
    (hp : parseIntBase10 idStr = some n)
    (h : s.appointments.find? (fun a => a.id == n) = none) :
    updateAppointment s idStr b = (.notFound, s) := by
  simp only [updateAppointment, hp, h]

/-- C10: a falsy submitted `AppointmentDate` (empty string, `null`,
`false`, `0`) is handled exactly like an absent field — no syntactic
validation, fallback to the record's current value — and likewise for
`AppointmentTime`. -/
theorem falsy_update_fields_as_absent (s : Store) (idStr : String)
    (bd bt r : JsValue) :
    (jsTruthy bd = false →
      updateAppointment s idStr ⟨bd, bt, r⟩ =
        updateAppointment s idStr ⟨.vundefined, bt, r⟩) ∧
    (jsTruthy bt = false →
      updateAppointment s idStr ⟨bd, bt, r⟩ =
        updateAppointment s idStr ⟨bd, .vundefined, r⟩) := by
  have h0 : jsTruthy JsValue.vundefined = false := rfl
  constructor
  · intro h
    cases hp : parseIntBase10 idStr with
    | none => simp only [updateAppointment, hp]
    | some n =>
        cases hfind : s.appointments.find? (fun a => a.id == n) with
        | none => simp only [updateAppointment, hp, hfind]
        | some appt =>
            simp only [updateAppointment, hp, hfind, newDateParam,
              newTimeParam, newDateStrictEq, newTimeStrictEq, h, h0,
              Bool.false_and]
            rfl
  · intro h
    cases hp : parseIntBase10 idStr with
    | none => simp only [updateAppointment, hp]
    | some n =>
        cases hfind : s.appointments.find? (fun a => a.id == n) with
        | none => simp only [updateAppointment, hp, hfind]
        | some appt =>
            simp only [updateAppointment, hp, hfind, newDateParam,
              newTimeParam, newDateStrictEq, newTimeStrictEq, h, h0,
              Bool.false_and]
            rfl

/-! ## Ordering of the creation checks (C3, C4) -/

/-- C3: the creation checks run in source order — patient-id form, date
syntax, time syntax, reason, patient existence, slot conflict — and in
particular a malformed date always produces a 400 validation response
(the date error, or the earlier patient-id error), never a 404 or a
409, whatever the store contains. -/
theorem create_checks_order (s : Store) (b : CreateBody) :
    (validPatientId b.PatientId = false →
      (createAppointment s b).1 = .invalidPatientId) ∧
    (validPatientId b.PatientId = true →
      isValidDate b.AppointmentDate = false →
      (createAppointment s b).1 = .badDate) ∧
    (validPatientId b.PatientId = true →
      isValidDate b.AppointmentDate = true →
      isValidTime b.AppointmentTime = false →
      (createAppointment s b).1 = .badTime) ∧
    (validPatientId b.PatientId = true →
      isValidDate b.AppointmentDate = true →
      isValidTime b.AppointmentTime = true →
      reasonOk b.Reason = false →
      (createAppointment s b).1 = .badReason) ∧
    (validPatientId b.PatientId = true →
      isValidDate b.AppointmentDate = true →
      isValidTime b.AppointmentTime = true →
      reasonOk b.Reason = true →
      ensurePatientExists s (patientIdVal b.PatientId) = false →
      (createAppointment s b).1 = .patientNotFound) ∧
    (validPatientId b.PatientId = true →
      isValidDate b.AppointmentDate = true →
      isValidTime b.AppointmentTime = true →
      reasonOk b.Reason = true →
      ensurePatientExists s (patientIdVal b.PatientId) = true →
      isSlotTaken s (patientIdVal b.PatientId)
        (jsToString b.AppointmentDate) (jsToString b.AppointmentTime) = true →
      (createAppointment s b).1 = .slotConflict) ∧
    (isValidDate b.AppointmentDate = false →
      createStatus (createAppointment s b).1 = 400 ∧
      (createAppointment s b).1 ≠ .patientNotFound ∧
      (createAppointment s b).1 ≠ .slotConflict) := by
  refine ⟨?_, ?_, ?_, ?_, ?_, ?_, ?_⟩
  · intro h1
    simp [createAppointment, h1]
  · intro h1 h2
    simp [createAppointment, h1, h2]
  · intro h1 h2 h3
    simp [createAppointment, h1, h2, h3]
  · intro h1 h2 h3 h4
    simp [createAppointment, h1, h2, h3, h4]
  · intro h1 h2 h3 h4 h5
    simp [createAppointment, h1, h2, h3, h4, h5]
  · intro h1 h2 h3 h4 h5 h6
    simp [createAppointment, h1, h2, h3, h4, h5, h6]
  · intro h2
    by_cases h1 : validPatientId b.PatientId = true
    · simp [createAppointment, h1, h2, createStatus]
    · rw [Bool.not_eq_true] at h1
      simp [createAppointment, h1, createStatus]

/-- C4 (amended): a creation request whose patient reference does not
resolve yields not-found provided every earlier check passes — positive
integer patient id and syntactically valid date, time and reason; a
validation failure takes precedence otherwise. -/
theorem create_notfound_after_validation (s : Store) (b : CreateBody)
    (h1 : validPatientId b.PatientId = true)
    (h2 : isValidDate b.AppointmentDate = true)
    (h3 : isValidTime b.AppointmentTime = true)
    (h4 : reasonOk b.Reason = true)
    (h5 : ensurePatientExists s (patientIdVal b.PatientId) = false) :
    (createAppointment s b).1 = .patientNotFound := by
  simp [createAppointment, h1, h2, h3, h4, h5]

/-! ## By-identity appointment routes (C7) -/

/-- C7 (amended): the three by-identity appointment routes perform no
identity validation.  An identity parsing to a number that matches no
live row — any non-positive number (ids are positive), or a
well-formed absent identity — yields 404 not-found from fetch, update
and delete, never a 400, with the store unchanged.  A non-numeric
identity parses to NaN; `WHERE id = NaN` raises a driver error that
the uncaught handlers never convert into a response — again no 400 is
ever produced, but no 404 either. -/
theorem appointment_by_id_lookup_notfound (s : Store) (idStr : String)
    (b : UpdateBody) :
    (∀ n, parseIntBase10 idStr = some n →
      (∀ a ∈ s.appointments, (a.id == n) = false) →
      getAppointment s idStr = .notFound ∧
      getStatus (getAppointment s idStr) = some 404 ∧
      updateAppointment s idStr b = (.notFound, s) ∧
      updateStatus (updateAppointment s idStr b).1 = some 404 ∧
      deleteAppointment s idStr = (.notFound, s) ∧
      deleteStatus (deleteAppointment s idStr).1 = some 404) ∧
    (parseIntBase10 idStr = none →
      getAppointment s idStr = .sqlError ∧
      getStatus (getAppointment s idStr) = none ∧
      updateAppointment s idStr b = (.sqlError, s) ∧
      deleteAppointment s idStr = (.sqlError, s)) := by
  constructor
  · intro n hp h
    have hfind : s.appointments.find? (fun a => a.id == n) = none :=
      List.find?_eq_none.mpr (fun a ha => by simp [h a ha])
    have hkeep : remainingRows s n = s.appointments :=
      List.filter_eq_self.mpr (fun a ha => by simp [h a ha])
    have hget : getAppointment s idStr = .notFound := by
      simp [getAppointment, hp, hfind]
    have hupd : updateAppointment s idStr b = (.notFound, s) := by
      simp only [updateAppointment, hp, hfind]
    have hdel : deleteAppointment s idStr = (.notFound, s) := by
      simp [deleteAppointment, hp, hkeep]
    refine ⟨hget, ?_, hupd, ?_, hdel, ?_⟩
    · rw [hget]; rfl
    · rw [hupd]; rfl
    · rw [hdel]; rfl
  · intro hp
    refine ⟨?_, ?_, ?_, ?_⟩
    · simp [getAppointment, hp]
    · simp [getAppointment, hp, getStatus]
    · simp [updateAppointment, hp]
    · simp [deleteAppointment, hp]

/-! ## Storage-failure surfacing (C8) -/

/-- C8 (amended): a caught storage failure is surfaced as a 500
response whose body carries the fixed generic message together with the
underlying error's own message in the `error` field — the internal
diagnostic detail is part of the response, not only of the
operator-side console record. -/
theorem storage_error_response_shape (e : DbFailure) :
    (getPatientsRoute (.error e)).1 = .dbFailure "Database error" e.message ∧
    patientsListStatus (getPatientsRoute (.error e)).1 = 500 ∧
    exposedDetail (getPatientsRoute (.error e)).1 = some e.message ∧
    (getPatientsRoute (.error e)).2 = ["DB Error: " ++ e.message] :=
  ⟨rfl, rfl, rfl, rfl⟩

/-! ## Characterization of the temporal validators (C5) -/

theorem charBetween_iff {lo hi : Nat} {c : Char} :
    charBetween lo hi c = true ↔ lo ≤ c.toNat ∧ c.toNat ≤ hi := by
  simp [charBetween]

theorem toNat_ofNat_digit {n : Nat} (h : n ≤ 9) :
    (Char.ofNat (48 + n)).toNat = 48 + n := by
  interval_cases n <;> decide

theorem pad2_digits {a b : Char} (ha1 : 48 ≤ a.toNat) (ha2 : a.toNat ≤ 57)
    (hb1 : 48 ≤ b.toNat) (hb2 : b.toNat ≤ 57) :
    pad2 ((a.toNat - 48) * 10 + (b.toNat - 48)) = [a, b] := by
  unfold pad2
  have h1 : ((a.toNat - 48) * 10 + (b.toNat - 48)) / 10 = a.toNat - 48 := by
    omega
  have h2 : ((a.toNat - 48) * 10 + (b.toNat - 48)) % 10 = b.toNat - 48 := by
    omega
  rw [h1, h2]
  have e1 : 48 + (a.toNat - 48) = a.toNat := by omega
  have e2 : 48 + (b.toNat - 48) = b.toNat := by omega
  rw [e1, e2, Char.ofNat_toNat, Char.ofNat_toNat]

theorem charBetween_ofNat {lo hi n : Nat} (hn : n ≤ 9) (h1 : lo ≤ 48 + n)
    (h2 : 48 + n ≤ hi) : charBetween lo hi (Char.ofNat (48 + n)) = true := by
  unfold charBetween
  rw [toNat_ofNat_digit hn]
  exact decide_eq_true ⟨h1, h2⟩

theorem charDigit_ofNat {n : Nat} (hn : n ≤ 9) :
    charDigit (Char.ofNat (48 + n)) = true :=
  charBetween_ofNat hn (by omega) (by omega)

theorem matchTimeChars_iff (cs : List Char) :
    matchTimeChars cs = true ↔
      ∃ h m : Nat, h ≤ 23 ∧ m ≤ 59 ∧ cs = pad2 h ++ ':' :: pad2 m := by
  constructor
  · intro hm
    rcases cs with _ | ⟨a, _ | ⟨b, _ | ⟨x, _ | ⟨d, _ | ⟨e, _ | ⟨f, rest⟩⟩⟩⟩⟩⟩ <;>
      try simp [matchTimeChars] at hm
    simp only [matchTimeChars, Bool.and_eq_true, Bool.or_eq_true,
      beq_iff_eq, charBetween_iff, charDigit] at hm
    obtain ⟨⟨⟨hAB, hx⟩, hm1⟩, hm2⟩ := hm
    subst hx
    have h50 : ('2' : Char).toNat = 50 := by decide
    have hcode : 48 ≤ a.toNat ∧ a.toNat ≤ 57 ∧ 48 ≤ b.toNat ∧
        b.toNat ≤ 57 ∧ (a.toNat - 48) * 10 + (b.toNat - 48) ≤ 23 := by
      rcases hAB with ⟨⟨u1, u2⟩, v1, v2⟩ | ⟨u, v1, v2⟩
      · omega
      · subst u
        omega
    refine ⟨(a.toNat - 48) * 10 + (b.toNat - 48),
      (d.toNat - 48) * 10 + (e.toNat - 48), hcode.2.2.2.2, by omega, ?_⟩
    rw [pad2_digits hcode.1 hcode.2.1 hcode.2.2.1 hcode.2.2.2.1,
      pad2_digits hm1.1 (by omega) hm2.1 hm2.2]
    rfl
  · rintro ⟨h, m, hh, hm', rfl⟩
    unfold pad2
    simp only [List.cons_append, List.nil_append]
    simp only [matchTimeChars, Bool.and_eq_true, Bool.or_eq_true, beq_iff_eq]
    refine ⟨⟨⟨?_, trivial⟩, ?_⟩, ?_⟩
    · by_cases hle : h ≤ 19
      · exact Or.inl ⟨charBetween_ofNat (by omega) (by omega) (by omega),
          charDigit_ofNat (by omega)⟩
      · refine Or.inr ⟨?_, charBetween_ofNat (by omega) (by omega) (by omega)⟩
        rw [show h / 10 = 2 by omega]
    · exact charBetween_ofNat (by omega) (by omega) (by omega)
    · exact charDigit_ofNat (by omega)

theorem matchDateChars_iff (cs : List Char) :
    matchDateChars cs = true ↔
      ∃ y mo d : Nat, y ≤ 9999 ∧ mo ≤ 99 ∧ d ≤ 99 ∧
        cs = pad4 y ++ '-' :: (pad2 mo ++ '-' :: pad2 d) := by
  constructor
  · intro hm
    rcases cs with _ | ⟨a1, _ | ⟨a2, _ | ⟨a3, _ | ⟨a4, _ | ⟨x1, _ | ⟨b1,
      _ | ⟨b2, _ | ⟨x2, _ | ⟨c1, _ | ⟨c2, _ | ⟨c3, rest⟩⟩⟩⟩⟩⟩⟩⟩⟩⟩⟩ <;>
      try simp [matchDateChars] at hm
    simp only [matchDateChars, Bool.and_eq_true, beq_iff_eq,
      charBetween_iff, charDigit] at hm
    obtain ⟨⟨⟨⟨⟨⟨⟨⟨⟨ha1, ha2⟩, ha3⟩, ha4⟩, hx1⟩, hb1⟩, hb2⟩, hx2⟩, hc1⟩,
      hc2⟩ := hm
    subst hx1
    subst hx2
    refine ⟨((a1.toNat - 48) * 10 + (a2.toNat - 48)) * 100 +
        ((a3.toNat - 48) * 10 + (a4.toNat - 48)),
      (b1.toNat - 48) * 10 + (b2.toNat - 48),
      (c1.toNat - 48) * 10 + (c2.toNat - 48),
      by omega, by omega, by omega, ?_⟩
    unfold pad4
    rw [show (((a1.toNat - 48) * 10 + (a2.toNat - 48)) * 100 +
        ((a3.toNat - 48) * 10 + (a4.toNat - 48))) / 100 =
        (a1.toNat - 48) * 10 + (a2.toNat - 48) by omega,
      show (((a1.toNat - 48) * 10 + (a2.toNat - 48)) * 100 +
        ((a3.toNat - 48) * 10 + (a4.toNat - 48))) % 100 =
        (a3.toNat - 48) * 10 + (a4.toNat - 48) by omega,
      pad2_digits ha1.1 ha1.2 ha2.1 ha2.2,
      pad2_digits ha3.1 ha3.2 ha4.1 ha4.2,
      pad2_digits hb1.1 hb1.2 hb2.1 hb2.2,
      pad2_digits hc1.1 hc1.2 hc2.1 hc2.2]
    rfl
  · rintro ⟨y, mo, d, hy, hmo, hd, rfl⟩
    unfold pad4 pad2
    simp only [List.cons_append, List.nil_append]
    simp only [matchDateChars, Bool.and_eq_true, beq_iff_eq]
    refine ⟨⟨⟨⟨⟨⟨⟨⟨⟨?_, ?_⟩, ?_⟩, ?_⟩, trivial⟩, ?_⟩, ?_⟩, trivial⟩, ?_⟩,
      ?_⟩ <;> exact charDigit_ofNat (by omega)

theorem matchDateRe_iff (s : String) :
    matchDateRe s = true ↔ DateShape s :=
  matchDateChars_iff s.data

theorem matchTimeRe_iff (s : String) :
    matchTimeRe s = true ↔ TimeShape s :=
  matchTimeChars_iff s.data

/-- C5 (amended): for every request-body value — string or not — the
temporal validators hold exactly when the JavaScript string coercion of
the value matches the pattern: four digits, dash, two digits, dash,
two digits with no calendar-validity constraint for the date, and hour
00–23, colon, minute 00–59 for the time.  Non-string inputs never
throw, but they are coerced rather than rejected, so a non-string
whose coercion matches (e.g. a singleton array holding a matching
string) is accepted. -/
theorem temporal_validators_characterization (v : JsValue) :
    (isValidDate v = true ↔ DateShape (jsToString v)) ∧
    (isValidTime v = true ↔ TimeShape (jsToString v)) :=
  ⟨matchDateRe_iff (jsToString v), matchTimeRe_iff (jsToString v)⟩

/-! ## Counterexamples and concrete witnesses -/

/-- C5 counterexample: the validators accept some non-string inputs.
A singleton array wrapping a matching string coerces (via `String(v)`,
i.e. `Array.prototype.join`) to the matching string itself, so
`regex.test` returns true on it — contradicting "on non-string inputs
both return false". -/
theorem temporal_validator_nonstring_counterexample :
    isValidDate (.varr [.vstr "2025-08-20"]) = true ∧
    JsValue.isString (.varr [.vstr "2025-08-20"]) = false ∧
    isValidTime (.varr [.vstr "14:30"]) = true ∧
    JsValue.isString (.varr [.vstr "14:30"]) = false := by
  refine ⟨by decide, rfl, by decide, rfl⟩

/-- C4 counterexample: a creation request naming a non-existent patient
but carrying a malformed date is answered with the date validation
error, not with not-found — the syntax checks run first. -/
theorem create_notfound_counterexample :
    ensurePatientExists (initStore []) 1 = false ∧
    (createAppointment (initStore [])
      ⟨.vnum 1, .vstr "garbage", .vstr "14:30", .vstr "x"⟩).1 = .badDate ∧
    (createAppointment (initStore [])
      ⟨.vnum 1, .vstr "garbage", .vstr "14:30", .vstr "x"⟩).1 ≠
      .patientNotFound := by
  refine ⟨rfl, by decide, by decide⟩

/-- C7 counterexample: a non-positive identity (`"-5"`) is answered
404, not 400, by all three by-identity appointment routes — none of
them has the 400 identity-validation branch the patient routes have;
a non-numeric identity (`"abc"`, parsed to NaN) produces the unhandled
`WHERE id = NaN` driver error, so no status — in particular no 400 —
is ever sent. -/
theorem appointment_id_no_validation_counterexample :
    getStatus (getAppointment sampleStore "-5") = some 404 ∧
    getStatus (getAppointment sampleStore "-5") ≠ some 400 ∧
    updateStatus (updateAppointment sampleStore "-5"
      ⟨.vundefined, .vundefined, .vundefined⟩).1 = some 404 ∧
    deleteStatus (deleteAppointment sampleStore "-5").1 = some 404 ∧
    getAppointment sampleStore "abc" = .sqlError ∧
    updateAppointment sampleStore "abc"
      ⟨.vundefined, .vundefined, .vundefined⟩ = (.sqlError, sampleStore) ∧
    deleteAppointment sampleStore "abc" = (.sqlError, sampleStore) := by
  refine ⟨by decide, by decide, by decide, by decide, by decide,
    by decide, by decide⟩

/-- C6 counterexample: the two conflict tests do not decide the same
outcomes.  On a store satisfying the slot-exclusivity invariant (and
key distinctness and canonical stored times), a request resubmitting
the record's own date and time makes the handler's expression true —
`isSlotTaken` matches the row itself and the `===` exemption fails
against the `Date`-object and `HH:MM:SS` read-backs — while the spec's
excluding-self occupancy test is false (the only occupant of the
computed slot is the record itself). -/
theorem update_conflict_not_equiv_counterexample :
    idsDistinct sampleStore ∧ timesCanonical sampleStore ∧
    slotInvariant sampleStore ∧ sampleA ∈ sampleStore.appointments ∧
    (isSlotTaken sampleStore sampleA.patient_id
      (newDateParam ⟨.vstr "2025-08-20", .vstr "14:30", .vundefined⟩ sampleA)
      (newTimeParam ⟨.vstr "2025-08-20", .vstr "14:30", .vundefined⟩
        sampleA) &&
      !(newDateStrictEq ⟨.vstr "2025-08-20", .vstr "14:30", .vundefined⟩ &&
        newTimeStrictEq ⟨.vstr "2025-08-20", .vstr "14:30", .vundefined⟩
          sampleA)) = true ∧
    slotTakenExcludingSelf sampleStore sampleA.id sampleA.patient_id
      (newDateParam ⟨.vstr "2025-08-20", .vstr "14:30", .vundefined⟩ sampleA)
      (newTimeParam ⟨.vstr "2025-08-20", .vstr "14:30", .vundefined⟩
        sampleA) = false := by
  refine ⟨by decide, by decide, by decide, by decide, by decide, by decide⟩

/-- C8 counterexample: the 500 response of the patients list route
carries the underlying storage error's message in its `error` field —
internal diagnostic detail beyond the generic message is exposed to the
caller, not only recorded on the console. -/
theorem storage_error_detail_exposed :
    exposedDetail (getPatientsRoute (.error
      ⟨"connect ECONNREFUSED 127.0.0.1:3306"⟩)).1 =
      some "connect ECONNREFUSED 127.0.0.1:3306" ∧
    exposedDetail (getPatientsRoute (.error
      ⟨"connect ECONNREFUSED 127.0.0.1:3306"⟩)).1 ≠ none := by
  refine ⟨rfl, by decide⟩

/-- C3 witness: on the sample store, a well-formed patient id with a
malformed date is answered with the date error, status 400. -/
theorem create_checks_order_witness :
    isValidDate (JsValue.vstr "bad-date") = false ∧
    (createAppointment sampleStore
      ⟨.vnum 1, .vstr "bad-date", .vstr "14:30", .vstr "x"⟩).1 = .badDate ∧
    createStatus (createAppointment sampleStore
      ⟨.vnum 1, .vstr "bad-date", .vstr "14:30", .vstr "x"⟩).1 = 400 :=
  ⟨by decide,
   (create_checks_order sampleStore
     ⟨.vnum 1, .vstr "bad-date", .vstr "14:30", .vstr "x"⟩).2.1
     (by decide) (by decide),
   ((create_checks_order sampleStore
     ⟨.vnum 1, .vstr "bad-date", .vstr "14:30", .vstr "x"⟩).2.2.2.2.2.2
     (by decide)).1⟩

/-- C4 (amended) witness: a fully valid creation request against a
store with no patients is answered not-found. -/
theorem create_notfound_after_validation_witness :
    ensurePatientExists (initStore []) 5 = false ∧
    (createAppointment (initStore [])
      ⟨.vnum 5, .vstr "2025-08-20", .vstr "14:30", .vstr "checkup"⟩).1 =
      .patientNotFound :=
  ⟨rfl,
   create_notfound_after_validation (initStore [])
     ⟨.vnum 5, .vstr "2025-08-20", .vstr "14:30", .vstr "checkup"⟩
     (by decide) (by decide) (by decide) (by decide) (by decide)⟩

/-- C6 (amended) witness: moving appointment 1 onto appointment 2's
slot is a genuine excluding-self conflict, and the handler's test
flags it (part one of the theorem applied concretely). -/
theorem update_conflict_vs_exclusion_witness :
    idsDistinct sampleStore2 ∧ timesCanonical sampleStore2 ∧
    slotInvariant sampleStore2 ∧ sampleA ∈ sampleStore2.appointments ∧
    slotTakenExcludingSelf sampleStore2 sampleA.id sampleA.patient_id
      (newDateParam ⟨.vstr "2025-08-21", .vstr "09:00", .vundefined⟩ sampleA)
      (newTimeParam ⟨.vstr "2025-08-21", .vstr "09:00", .vundefined⟩
        sampleA) = true ∧
    (isSlotTaken sampleStore2 sampleA.patient_id
      (newDateParam ⟨.vstr "2025-08-21", .vstr "09:00", .vundefined⟩ sampleA)
      (newTimeParam ⟨.vstr "2025-08-21", .vstr "09:00", .vundefined⟩
        sampleA) &&
      !(newDateStrictEq ⟨.vstr "2025-08-21", .vstr "09:00", .vundefined⟩ &&
        newTimeStrictEq ⟨.vstr "2025-08-21", .vstr "09:00", .vundefined⟩
          sampleA)) = true :=
  ⟨by decide, by decide, by decide, by decide, by decide,
   (update_conflict_vs_exclusion sampleStore2 sampleA
     ⟨.vstr "2025-08-21", .vstr "09:00", .vundefined⟩ (by decide)
     (by decide) (by decide) (by decide) (fun _ => by decide)).1
     (by decide)⟩

/-- C7 (amended) witness: the well-formed absent identity `"99"`
yields 404 from fetch and delete, and the non-numeric identity
`"abc"` hits the unhandled driver-error path (both parts of the
theorem applied concretely). -/
theorem appointment_by_id_lookup_notfound_witness :
    parseIntBase10 "99" = some 99 ∧
    (∀ a ∈ sampleStore.appointments, (a.id == (99 : Int)) = false) ∧
    getAppointment sampleStore "99" = .notFound ∧
    deleteAppointment sampleStore "99" = (.notFound, sampleStore) ∧
    parseIntBase10 "abc" = none ∧
    getAppointment sampleStore "abc" = .sqlError :=
  ⟨by decide, by decide,
   ((appointment_by_id_lookup_notfound sampleStore "99"
     ⟨.vundefined, .vundefined, .vundefined⟩).1 99 (by decide)
     (by decide)).1,
   ((appointment_by_id_lookup_notfound sampleStore "99"
     ⟨.vundefined, .vundefined, .vundefined⟩).1 99 (by decide)
     (by decide)).2.2.2.2.1,
   by decide,
   ((appointment_by_id_lookup_notfound sampleStore "abc"
     ⟨.vundefined, .vundefined, .vundefined⟩).2 (by decide)).1⟩

/-- C9 witness: an update addressed to the absent identity 99 with a
malformed date and time is answered not-found, not with a validation
error, and the store is unchanged. -/
theorem update_absent_id_short_circuits_witness :
    parseIntBase10 "99" = some 99 ∧
    sampleStore.appointments.find? (fun a => a.id == (99 : Int)) = none ∧
    updateAppointment sampleStore "99"
      ⟨.vstr "not-a-date", .vstr "99:99", .vnum 0⟩ =
      (.notFound, sampleStore) :=
  ⟨by decide, by decide,
   update_absent_id_short_circuits sampleStore "99"
     ⟨.vstr "not-a-date", .vstr "99:99", .vnum 0⟩ 99 (by decide)
     (by decide)⟩

/-- C10 witness: an empty-string date field behaves exactly like an
absent date field on the sample store. -/
theorem falsy_update_fields_as_absent_witness :
    jsTruthy (.vstr "") = false ∧
    updateAppointment sampleStore "1" ⟨.vstr "", .vstr "14:30", .vundefined⟩ =
      updateAppointment sampleStore "1"
        ⟨.vundefined, .vstr "14:30", .vundefined⟩ :=
  ⟨by decide,
   (falsy_update_fields_as_absent sampleStore "1"
     (.vstr "") (.vstr "14:30") .vundefined).1 (by decide)⟩

end Appointments
